import Mathlib

/-!
Verification of the `json2rust` tokenizer (`src/tokenizer.rs`, `src/shared.rs`).

The tokenizer is a single-pass character state machine.  We embed it
shallowly: Rust `String` values become `List Char`, the `i64` counters
become `Int` (the loop only ever adds 1, far from any overflow), the
mutable loop becomes a fold (`tokenizeLoop`) over an explicit execution
state (`ScanExec`) holding the token accumulator, the scan state and the
line/column counters, and early `return Err(..)` becomes `Except.error`.

One point of care: in the Rust source the escape branch of the
`ReadingString` state ends with `continue`, which skips the
`column_number += 1` statement at the bottom of the loop body; the
embedding reproduces this by not incrementing `columnNumber` on that
branch.
-/

namespace Json2Rust

/-- Struct `JsonTokenInfo` from `src/shared.rs`: line, column and character index. -/
structure JsonTokenInfo where
  line : Int
  column : Int
  char : Int
deriving DecidableEq, Repr

/-- Constructor `JsonTokenInfo::new` from `src/shared.rs`. -/
def JsonTokenInfo.new (line column char : Int) : JsonTokenInfo :=
  { line := line, column := column, char := char }

/-- The `Error` enum from `src/shared.rs` (the `InvalidJson` message is a
`List Char`, matching our embedding of Rust strings). -/
inductive Error where
  | MultipleDecimalSeparators (location : JsonTokenInfo)
  | DecimalAfterExponent (location : JsonTokenInfo)
  | InvalidNumberCharacter (location : JsonTokenInfo) (c : Char)
  | MultipleExponentCharacters (location : JsonTokenInfo)
  | UnknownJsonCharacter (location : JsonTokenInfo) (c : Char)
  | UnclosedString (location : JsonTokenInfo)
  | NumbersCannotStartWithZero (location : JsonTokenInfo)
  | InvalidJson (location : JsonTokenInfo) (message : List Char)
deriving DecidableEq, Repr

/-- Enum `JsonTokenType` from `src/tokenizer.rs`. -/
inductive JsonTokenType where
  | ObjectStart
  | ObjectEnd
  | ArrayStart
  | ArrayEnd
  | String (value : List Char)
  | Float
  | Int
  | Bool
  | Colon
deriving DecidableEq, Repr

/-- Struct `JsonToken` from `src/tokenizer.rs`: a token kind with its source location. -/
structure JsonToken where
  location : JsonTokenInfo
  token_type : JsonTokenType
deriving DecidableEq, Repr

/-- Constructor `JsonToken::new` from `src/tokenizer.rs`. -/
def JsonToken.new (token_type : JsonTokenType) (location : JsonTokenInfo) : JsonToken :=
  { location := location, token_type := token_type }

/-- Struct `TokenizerStringReadingState` from `src/tokenizer.rs`. -/
structure TokenizerStringReadingState where
  starting_location : JsonTokenInfo
  value : List Char
  escape_next : Bool
deriving DecidableEq, Repr

/-- Struct `TokenizerNumberReadingState` from `src/tokenizer.rs`. -/
structure TokenizerNumberReadingState where
  starting_location : JsonTokenInfo
  seen_decimal_char : Bool
  seen_exponent : Bool
deriving DecidableEq, Repr

/-- Constructor `TokenizerNumberReadingState::new` from `src/tokenizer.rs`. -/
def TokenizerNumberReadingState.new (starting_location : JsonTokenInfo) :
    TokenizerNumberReadingState :=
  { starting_location := starting_location, seen_exponent := false, seen_decimal_char := false }

/-- Enum `TokenizerState` from `src/tokenizer.rs`. -/
inductive TokenizerState where
  | Ready
  | ReadingString (s : TokenizerStringReadingState)
  | ReadingNumber (s : TokenizerNumberReadingState)
deriving DecidableEq, Repr

/-- Unicode code-point ranges of the general category N, that is Nd, Nl
and No (Unicode 15.0): the set accepted by Rust's `char::is_numeric`,
which the source consults in its `c if c.is_numeric()` match guards. -/
def numericRanges : List (Nat × Nat) :=
  [ -- Nd (decimal digits), Basic Multilingual Plane
    (0x30, 0x39), (0x660, 0x669), (0x6F0, 0x6F9), (0x7C0, 0x7C9),
    (0x966, 0x96F), (0x9E6, 0x9EF), (0xA66, 0xA6F), (0xAE6, 0xAEF),
    (0xB66, 0xB6F), (0xBE6, 0xBEF), (0xC66, 0xC6F), (0xCE6, 0xCEF),
    (0xD66, 0xD6F), (0xDE6, 0xDEF), (0xE50, 0xE59), (0xED0, 0xED9),
    (0xF20, 0xF29), (0x1040, 0x1049), (0x1090, 0x1099), (0x17E0, 0x17E9),
    (0x1810, 0x1819), (0x1946, 0x194F), (0x19D0, 0x19D9), (0x1A80, 0x1A89),
    (0x1A90, 0x1A99), (0x1B50, 0x1B59), (0x1BB0, 0x1BB9), (0x1C40, 0x1C49),
    (0x1C50, 0x1C59), (0xA620, 0xA629), (0xA8D0, 0xA8D9), (0xA900, 0xA909),
    (0xA9D0, 0xA9D9), (0xA9F0, 0xA9F9), (0xAA50, 0xAA59), (0xABF0, 0xABF9),
    (0xFF10, 0xFF19),
    -- Nd, supplementary planes
    (0x104A0, 0x104A9), (0x10D30, 0x10D39), (0x11066, 0x1106F),
    (0x110F0, 0x110F9), (0x11136, 0x1113F), (0x111D0, 0x111D9),
    (0x112F0, 0x112F9), (0x11450, 0x11459), (0x114D0, 0x114D9),
    (0x11650, 0x11659), (0x116C0, 0x116C9), (0x11730, 0x11739),
    (0x118E0, 0x118E9), (0x11950, 0x11959), (0x11C50, 0x11C59),
    (0x11D50, 0x11D59), (0x11DA0, 0x11DA9), (0x11F50, 0x11F59),
    (0x16A60, 0x16A69), (0x16AC0, 0x16AC9), (0x16B50, 0x16B59),
    (0x1D7CE, 0x1D7FF), (0x1E140, 0x1E149), (0x1E2F0, 0x1E2F9),
    (0x1E4F0, 0x1E4F9), (0x1E950, 0x1E959), (0x1FBF0, 0x1FBF9),
    -- Nl (letter numbers), Basic Multilingual Plane
    (0x16EE, 0x16F0), (0x2160, 0x2182), (0x2185, 0x2188), (0x3007, 0x3007),
    (0x3021, 0x3029), (0x3038, 0x303A), (0xA6E6, 0xA6EF),
    -- Nl, supplementary planes
    (0x10140, 0x10174), (0x10341, 0x10341), (0x1034A, 0x1034A),
    (0x103D1, 0x103D5), (0x12400, 0x1246E),
    -- No (other numbers), Basic Multilingual Plane
    (0xB2, 0xB3), (0xB9, 0xB9), (0xBC, 0xBE), (0x9F4, 0x9F9),
    (0xB72, 0xB77), (0xBF0, 0xBF2), (0xC78, 0xC7E), (0xD58, 0xD5E),
    (0xD70, 0xD78), (0xF2A, 0xF33), (0x1369, 0x137C), (0x17F0, 0x17F9),
    (0x19DA, 0x19DA), (0x2070, 0x2070), (0x2074, 0x2079), (0x2080, 0x2089),
    (0x2150, 0x215F), (0x2189, 0x2189), (0x2460, 0x249B), (0x24EA, 0x24FF),
    (0x2776, 0x2793), (0x2CFD, 0x2CFD), (0x3192, 0x3195), (0x3220, 0x3229),
    (0x3248, 0x324F), (0x3251, 0x325F), (0x3280, 0x3289), (0x32B1, 0x32BF),
    (0xA830, 0xA835),
    -- No, supplementary planes
    (0x10107, 0x10133), (0x10175, 0x10178), (0x1018A, 0x1018B),
    (0x102E1, 0x102FB), (0x10320, 0x10323), (0x10858, 0x1085F),
    (0x10879, 0x1087F), (0x108A7, 0x108AF), (0x108FB, 0x108FF),
    (0x10916, 0x1091B), (0x109BC, 0x109BD), (0x109C0, 0x109CF),
    (0x109D2, 0x109FF), (0x10A40, 0x10A48), (0x10A7D, 0x10A7E),
    (0x10A9D, 0x10A9F), (0x10AEB, 0x10AEF), (0x10B58, 0x10B5F),
    (0x10B78, 0x10B7F), (0x10BA9, 0x10BAF), (0x10CFA, 0x10CFF),
    (0x10E60, 0x10E7E), (0x10F1D, 0x10F26), (0x10F51, 0x10F54),
    (0x10FC5, 0x10FCB), (0x11052, 0x11065), (0x111E1, 0x111F4),
    (0x1173A, 0x1173B), (0x118EA, 0x118F2), (0x11C5A, 0x11C6C),
    (0x11FC0, 0x11FD4), (0x16B5B, 0x16B61), (0x16E80, 0x16E96),
    (0x1D2C0, 0x1D2D3), (0x1D2E0, 0x1D2F3), (0x1D360, 0x1D378),
    (0x1E8C7, 0x1E8CF), (0x1EC71, 0x1ECAB), (0x1ECAD, 0x1ECAF),
    (0x1ECB1, 0x1ECB4), (0x1ED01, 0x1ED2D), (0x1ED2F, 0x1ED3D),
    (0x1F100, 0x1F10C) ]

/-- Rust's `char::is_numeric`: membership of the character's code point in
one of the Nd/Nl/No ranges. -/
def is_numeric (c : Char) : Bool :=
  numericRanges.any (fun p => p.1 ≤ c.toNat ∧ c.toNat ≤ p.2)

/-- The execution state of one `tokenize_json` call: the growing `tokens`
vector, the current `TokenizerState` and the running `line_number` /
`column_number` counters (all the loop-carried mutable locals of the Rust
function). -/
structure ScanExec where
  tokens : List JsonToken
  state : TokenizerState
  lineNumber : Int
  columnNumber : Int
deriving DecidableEq, Repr

/-- Function `end_current_token` from `src/tokenizer.rs` (the `&mut` parameters
become an explicit pair result): an open string is an error at its
starting location, an open number is finalized, `Ready` does nothing;
the returned state is always `Ready`. -/
def end_current_token (tokens : List JsonToken) (state : TokenizerState) :
    Except Error (List JsonToken × TokenizerState) :=
  match state with
  | .ReadingString s => .error (.UnclosedString s.starting_location)
  | .ReadingNumber s => .ok (add_number_to_tokens tokens s, .Ready)
  | .Ready => .ok (tokens, .Ready)
where
  /-- Function `add_number_to_tokens` from `src/tokenizer.rs`. -/
  add_number_to_tokens (tokens : List JsonToken) (s : TokenizerNumberReadingState) :
      List JsonToken :=
    if s.seen_decimal_char then
      tokens ++ [JsonToken.new .Float s.starting_location]
    else
      tokens ++ [JsonToken.new .Int s.starting_location]

/-- The body of the `for` loop of `tokenize_json`, for one character at
character index `index`.  Branch order follows the Rust `match` arms
exactly (note in `Ready` the `c.is_numeric()` guard arm precedes the
`' '` arm, and in `ReadingNumber` it precedes the `,`/`]`/`}` arm).
Every branch increments `columnNumber`, except the string-escape branch,
whose Rust code reaches `continue` before the increment. -/
def tokenizeStep (ex : ScanExec) (index : Int) (currentChar : Char) :
    Except Error ScanExec :=
  match ex.state with
  | .Ready =>
    let location := JsonTokenInfo.new ex.lineNumber ex.columnNumber index
    if currentChar = '{' then
      .ok { ex with tokens := ex.tokens ++ [JsonToken.new .ObjectStart location],
                    columnNumber := ex.columnNumber + 1 }
    else if currentChar = '}' then
      .ok { ex with tokens := ex.tokens ++ [JsonToken.new .ObjectEnd location],
                    columnNumber := ex.columnNumber + 1 }
    else if currentChar = '[' then
      .ok { ex with tokens := ex.tokens ++ [JsonToken.new .ArrayStart location],
                    columnNumber := ex.columnNumber + 1 }
    else if currentChar = ']' then
      .ok { ex with tokens := ex.tokens ++ [JsonToken.new .ArrayEnd location],
                    columnNumber := ex.columnNumber + 1 }
    else if currentChar = ':' then
      .ok { ex with tokens := ex.tokens ++ [JsonToken.new .Colon location],
                    columnNumber := ex.columnNumber + 1 }
    else if currentChar = ',' then
      .ok { ex with columnNumber := ex.columnNumber + 1 }
    else if currentChar = '"' then
      .ok { ex with state := .ReadingString
                      { starting_location := location, value := [], escape_next := false },
                    columnNumber := ex.columnNumber + 1 }
    else if is_numeric currentChar then
      if currentChar = '0' then
        .error (.NumbersCannotStartWithZero location)
      else
        .ok { ex with state := .ReadingNumber (TokenizerNumberReadingState.new location),
                      columnNumber := ex.columnNumber + 1 }
    else if currentChar = ' ' then
      .ok { ex with columnNumber := ex.columnNumber + 1 }
    else
      .error (.UnknownJsonCharacter location currentChar)
  | .ReadingString s =>
    if s.escape_next then
      -- `continue` in the source: the column increment is skipped.
      .ok { ex with state := .ReadingString
                      { starting_location := s.starting_location,
                        value := s.value ++ [currentChar], escape_next := false } }
    else if currentChar = '"' then
      .ok { ex with tokens := ex.tokens ++
                      [JsonToken.new (.String s.value) s.starting_location],
                    state := .Ready,
                    columnNumber := ex.columnNumber + 1 }
    else if currentChar = '\\' then
      .ok { ex with state := .ReadingString
                      { starting_location := s.starting_location,
                        value := s.value, escape_next := true },
                    columnNumber := ex.columnNumber + 1 }
    else
      .ok { ex with state := .ReadingString
                      { starting_location := s.starting_location,
                        value := s.value ++ [currentChar], escape_next := false },
                    columnNumber := ex.columnNumber + 1 }
  | .ReadingNumber s =>
    if currentChar = '.' then
      if s.seen_decimal_char then
        .error (.MultipleDecimalSeparators s.starting_location)
      else if s.seen_exponent then
        .error (.DecimalAfterExponent s.starting_location)
      else
        .ok { ex with state := .ReadingNumber { s with seen_decimal_char := true },
                      columnNumber := ex.columnNumber + 1 }
    else if currentChar = 'e' ∨ currentChar = 'E' then
      if s.seen_exponent then
        .error (.MultipleExponentCharacters s.starting_location)
      else
        .ok { ex with state := .ReadingNumber { s with seen_exponent := true },
                      columnNumber := ex.columnNumber + 1 }
    else if is_numeric currentChar then
      .ok { ex with columnNumber := ex.columnNumber + 1 }
    else if currentChar = ',' ∨ currentChar = ']' ∨ currentChar = '}' then
      match end_current_token ex.tokens ex.state with
      | .error e => .error e
      | .ok (tokens₁, state₁) =>
        let tokens₂ :=
          if currentChar = ']' then
            tokens₁ ++ [JsonToken.new .ArrayEnd
              (JsonTokenInfo.new ex.lineNumber ex.columnNumber index)]
          else if currentChar = '}' then
            tokens₁ ++ [JsonToken.new .ObjectEnd
              (JsonTokenInfo.new ex.lineNumber ex.columnNumber index)]
          else tokens₁
        .ok { ex with tokens := tokens₂, state := state₁,
                      columnNumber := ex.columnNumber + 1 }
    else
      .error (.InvalidNumberCharacter s.starting_location currentChar)

/-- The scan loop of `tokenize_json`: fold `tokenizeStep` over the input,
threading the character index of `enumerate`. -/
def tokenizeLoop : List Char → Int → ScanExec → Except Error ScanExec
  | [], _, ex => .ok ex
  | c :: cs, index, ex =>
    match tokenizeStep ex index c with
    | .error e => .error e
    | .ok ex' => tokenizeLoop cs (index + 1) ex'

/-- The initial execution state of `tokenize_json`: empty token vector,
`Ready`, `line_number = 1`, `column_number = 1`. -/
def initExec : ScanExec :=
  { tokens := [], state := .Ready, lineNumber := 1, columnNumber := 1 }

/-- Function `tokenize_json` from `src/tokenizer.rs`: run the scan loop from the
initial state, then close the final token with `end_current_token`. -/
def tokenize_json (json : List Char) : Except Error (List JsonToken) :=
  match tokenizeLoop json 0 initExec with
  | .error e => .error e
  | .ok ex =>
    match end_current_token ex.tokens ex.state with
    | .error e => .error e
    | .ok (tokens, _) => .ok tokens

instance {ε α : Type} [DecidableEq ε] [DecidableEq α] : DecidableEq (Except ε α) := fun x y =>
  match x, y with
  | .ok a, .ok b => if h : a = b then .isTrue (by rw [h]) else .isFalse (by simp [h])
  | .error a, .error b => if h : a = b then .isTrue (by rw [h]) else .isFalse (by simp [h])
  | .ok _, .error _ => .isFalse (by simp)
  | .error _, .ok _ => .isFalse (by simp)

example : tokenize_json ['{', '}'] =
    .ok [JsonToken.new .ObjectStart (JsonTokenInfo.new 1 1 0),
         JsonToken.new .ObjectEnd (JsonTokenInfo.new 1 2 1)] := by decide

example : tokenize_json ['[', '4', '2', '.', '5', ']'] =
    .ok [JsonToken.new .ArrayStart (JsonTokenInfo.new 1 1 0),
         JsonToken.new .Float (JsonTokenInfo.new 1 2 1),
         JsonToken.new .ArrayEnd (JsonTokenInfo.new 1 6 5)] := by decide

example : tokenize_json ['0', '4', '2'] =
    .error (.NumbersCannotStartWithZero (JsonTokenInfo.new 1 1 0)) := by decide

example : tokenize_json ['"', 'f', 'o', 'o'] =
    .error (.UnclosedString (JsonTokenInfo.new 1 1 0)) := by decide

example : tokenize_json ['5', '.', '5', '.', '5'] =
    .error (.MultipleDecimalSeparators (JsonTokenInfo.new 1 1 0)) := by decide

/-- Whether the scanner is inside a string with the escape flag set
(the one situation whose loop body reaches `continue` before the column
increment). -/
def inEscape : TokenizerState → Bool
  | .ReadingString s => s.escape_next
  | _ => false

/-- The characters the spec calls purely structural input: braces,
brackets, colon, comma and the space character. -/
def structuralChars : List Char := ['{', '}', '[', ']', ':', ',', ' ']

/-- Spec-side description (§8 of the spec) of the token a structural
character should contribute: the five punctuation tokens, and `none` for
comma and space. -/
def specStructuralToken : Char → Option JsonTokenType
  | '{' => some .ObjectStart
  | '}' => some .ObjectEnd
  | '[' => some .ArrayStart
  | ']' => some .ArrayEnd
  | ':' => some .Colon
  | _ => none

/-- C3: with a number in progress, a terminating `,` emits only the
finalized number token (`Float` if a decimal separator was seen, else
`Int`) at the number's starting location and returns the state to
`Ready`; a terminating `]` or `}` additionally emits its own structural
token at a freshly computed location; and end of input finalizes the
number through `end_current_token` without error and without any
trailing structural token. -/
theorem number_termination (tks : List JsonToken) (s : TokenizerNumberReadingState)
    (ln col i : Int) :
    (tokenizeStep ⟨tks, .ReadingNumber s, ln, col⟩ i ',' =
      .ok ⟨tks ++ [JsonToken.new (if s.seen_decimal_char then .Float else .Int)
                     s.starting_location],
           .Ready, ln, col + 1⟩)
    ∧ (tokenizeStep ⟨tks, .ReadingNumber s, ln, col⟩ i ']' =
      .ok ⟨tks ++ [JsonToken.new (if s.seen_decimal_char then .Float else .Int)
                     s.starting_location,
                   JsonToken.new .ArrayEnd (JsonTokenInfo.new ln col i)],
           .Ready, ln, col + 1⟩)
    ∧ (tokenizeStep ⟨tks, .ReadingNumber s, ln, col⟩ i '}' =
      .ok ⟨tks ++ [JsonToken.new (if s.seen_decimal_char then .Float else .Int)
                     s.starting_location,
                   JsonToken.new .ObjectEnd (JsonTokenInfo.new ln col i)],
           .Ready, ln, col + 1⟩)
    ∧ (end_current_token tks (.ReadingNumber s) =
      .ok (tks ++ [JsonToken.new (if s.seen_decimal_char then .Float else .Int)
                     s.starting_location],
           .Ready)) := by
  obtain ⟨loc, sd, se⟩ := s
  cases sd <;>
    simp [tokenizeStep, end_current_token, end_current_token.add_number_to_tokens,
      is_numeric, numericRanges, JsonToken.new]

/-- C4: a `'0'` reached in the `Ready` state aborts the whole call with
`NumbersCannotStartWithZero` at that character's own location, whatever
follows (in particular a bare `"0"` input fails), while a `'0'` inside an
already-started number is consumed silently with no state change. -/
theorem leading_zero_rejected (cs : List Char) (tks : List JsonToken)
    (s : TokenizerNumberReadingState) (ln col i : Int) :
    (tokenize_json ('0' :: cs) =
      .error (.NumbersCannotStartWithZero (JsonTokenInfo.new 1 1 0)))
    ∧ (tokenizeLoop ('0' :: cs) i ⟨tks, .Ready, ln, col⟩ =
      .error (.NumbersCannotStartWithZero (JsonTokenInfo.new ln col i)))
    ∧ (tokenizeStep ⟨tks, .ReadingNumber s, ln, col⟩ i '0' =
      .ok ⟨tks, .ReadingNumber s, ln, col + 1⟩) := by
  have hnum : is_numeric '0' = true := by decide
  refine ⟨?_, ?_, ?_⟩
  · simp [tokenize_json, tokenizeLoop, tokenizeStep, initExec, hnum]
  · simp [tokenizeLoop, tokenizeStep, hnum]
  · simp [tokenizeStep, hnum]

/-- C7: in the `Ready` state a space is discarded with no token and no
error, while tab, newline and carriage return each abort with
`UnknownJsonCharacter` carrying that character's location and the
character itself. -/
theorem ready_whitespace_handling (tks : List JsonToken) (ln col i : Int) :
    (tokenizeStep ⟨tks, .Ready, ln, col⟩ i ' ' = .ok ⟨tks, .Ready, ln, col + 1⟩)
    ∧ (tokenizeStep ⟨tks, .Ready, ln, col⟩ i '\t' =
      .error (.UnknownJsonCharacter (JsonTokenInfo.new ln col i) '\t'))
    ∧ (tokenizeStep ⟨tks, .Ready, ln, col⟩ i '\n' =
      .error (.UnknownJsonCharacter (JsonTokenInfo.new ln col i) '\n'))
    ∧ (tokenizeStep ⟨tks, .Ready, ln, col⟩ i '\r' =
      .error (.UnknownJsonCharacter (JsonTokenInfo.new ln col i) '\r')) := by
  refine ⟨?_, ?_, ?_, ?_⟩ <;> simp [tokenizeStep, is_numeric, numericRanges]

/-- C8: a character that is not `.`, not `e`/`E`, not numeric and not a
number terminator, reached while a number is in progress, aborts with
`InvalidNumberCharacter` carrying the number's starting location (not the
offending character's own location) together with the offending
character. -/
theorem invalid_number_character_location (tks : List JsonToken)
    (s : TokenizerNumberReadingState) (ln col i : Int) (c : Char)
    (h1 : c ≠ '.') (h2 : c ≠ 'e') (h3 : c ≠ 'E') (h4 : is_numeric c = false)
    (h5 : c ≠ ',') (h6 : c ≠ ']') (h7 : c ≠ '}') :
    tokenizeStep ⟨tks, .ReadingNumber s, ln, col⟩ i c =
      .error (.InvalidNumberCharacter s.starting_location c) := by
  simp [tokenizeStep, h1, h2, h3, h4, h5, h6, h7]

/-- Witness for C8 at the concrete character `x`. -/
theorem invalid_number_character_location_witness :
    tokenizeStep ⟨[], .ReadingNumber (TokenizerNumberReadingState.new (JsonTokenInfo.new 1 1 0)),
        1, 2⟩ 1 'x' =
      .error (.InvalidNumberCharacter (JsonTokenInfo.new 1 1 0) 'x') :=
  invalid_number_character_location [] _ 1 2 1 'x' (by decide) (by decide) (by decide)
    (by decide) (by decide) (by decide) (by decide)

/-- C10: in the `ReadingString` state with the escape flag clear, any
character other than `"` and `\` — raw control characters included — is
appended verbatim to the accumulated value, never errors, and leaves the
scanner inside the same string. -/
theorem string_content_verbatim (tks : List JsonToken) (loc : JsonTokenInfo)
    (v : List Char) (ln col i : Int) (c : Char) (h1 : c ≠ '"') (h2 : c ≠ '\\') :
    tokenizeStep ⟨tks, .ReadingString ⟨loc, v, false⟩, ln, col⟩ i c =
      .ok ⟨tks, .ReadingString ⟨loc, v ++ [c], false⟩, ln, col + 1⟩ := by
  simp [tokenizeStep, h1, h2]

/-- Witness for C10 at the concrete character newline: an unescaped line
break inside a string is accepted and accumulated. -/
theorem string_content_verbatim_witness :
    tokenizeStep ⟨[], .ReadingString ⟨JsonTokenInfo.new 1 1 0, ['a'], false⟩, 1, 3⟩ 2 '\n' =
      .ok ⟨[], .ReadingString ⟨JsonTokenInfo.new 1 1 0, ['a', '\n'], false⟩, 1, 3 + 1⟩ :=
  string_content_verbatim [] (JsonTokenInfo.new 1 1 0) ['a'] 1 3 2 '\n'
    (by decide) (by decide)

/-- C6: with the escape flag set, the current character is appended
verbatim (no escape-sequence interpretation) and the flag is cleared;
consequently, from a string state with the flag clear, the two-character
sequences `\"` and `\\` accumulate a literal `"` resp. `\` without
emitting any token, without leaving the string and without leaving the
escape mode on. -/
theorem escape_appends_verbatim (tks : List JsonToken) (loc : JsonTokenInfo)
    (v : List Char) (ln col i : Int) (c : Char) :
    (tokenizeStep ⟨tks, .ReadingString ⟨loc, v, true⟩, ln, col⟩ i c =
      .ok ⟨tks, .ReadingString ⟨loc, v ++ [c], false⟩, ln, col⟩)
    ∧ ((tokenizeStep ⟨tks, .ReadingString ⟨loc, v, false⟩, ln, col⟩ i '\\').bind
        (fun ex => tokenizeStep ex (i + 1) '"') =
      .ok ⟨tks, .ReadingString ⟨loc, v ++ ['"'], false⟩, ln, col + 1⟩)
    ∧ ((tokenizeStep ⟨tks, .ReadingString ⟨loc, v, false⟩, ln, col⟩ i '\\').bind
        (fun ex => tokenizeStep ex (i + 1) '\\') =
      .ok ⟨tks, .ReadingString ⟨loc, v ++ ['\\'], false⟩, ln, col + 1⟩) := by
  refine ⟨?_, ?_, ?_⟩ <;> simp [tokenizeStep, Except.bind]

/-- C9: any character Rust's `char::is_numeric` accepts — not only an
ASCII digit — starts a number from `Ready` (when it is not `'0'`),
recording the current location with both flags clear, and is silently
consumed inside an already-started number. -/
theorem unicode_numeric_accepted (tks : List JsonToken)
    (s : TokenizerNumberReadingState) (ln col i : Int) (c : Char)
    (hnum : is_numeric c = true) (h0 : c ≠ '0') :
    (tokenizeStep ⟨tks, .Ready, ln, col⟩ i c =
      .ok ⟨tks, .ReadingNumber (TokenizerNumberReadingState.new (JsonTokenInfo.new ln col i)),
           ln, col + 1⟩)
    ∧ (tokenizeStep ⟨tks, .ReadingNumber s, ln, col⟩ i c =
      .ok ⟨tks, .ReadingNumber s, ln, col + 1⟩) := by
  have hbrace : c ≠ '{' := by rintro rfl; revert hnum; decide
  have hbrace2 : c ≠ '}' := by rintro rfl; revert hnum; decide
  have hbrack : c ≠ '[' := by rintro rfl; revert hnum; decide
  have hbrack2 : c ≠ ']' := by rintro rfl; revert hnum; decide
  have hcolon : c ≠ ':' := by rintro rfl; revert hnum; decide
  have hcomma : c ≠ ',' := by rintro rfl; revert hnum; decide
  have hquote : c ≠ '"' := by rintro rfl; revert hnum; decide
  have hdot : c ≠ '.' := by rintro rfl; revert hnum; decide
  have he : c ≠ 'e' := by rintro rfl; revert hnum; decide
  have hE : c ≠ 'E' := by rintro rfl; revert hnum; decide
  constructor
  · simp [tokenizeStep, hbrace, hbrace2, hbrack, hbrack2, hcolon, hcomma, hquote,
      hnum, h0]
  · simp [tokenizeStep, hdot, he, hE, hnum]

/-- Witness for C9 at the Arabic-Indic digit five (U+0665, category Nd),
at the Greek acrophonic attic one quarter (U+10140, category Nl) and at
the Rumi digit one (U+10E60, category No): all three start a number from
`Ready`, and the Rumi digit is also consumed inside a number. -/
theorem unicode_numeric_accepted_witness :
    (tokenizeStep ⟨[], .Ready, 1, 1⟩ 0 '٥' =
      .ok ⟨[], .ReadingNumber (TokenizerNumberReadingState.new (JsonTokenInfo.new 1 1 0)),
           1, 1 + 1⟩)
    ∧ (tokenizeStep ⟨[], .ReadingNumber (TokenizerNumberReadingState.new (JsonTokenInfo.new 1 1 0)),
          1, 2⟩ 1 '٥' =
      .ok ⟨[], .ReadingNumber (TokenizerNumberReadingState.new (JsonTokenInfo.new 1 1 0)),
           1, 2 + 1⟩)
    ∧ (tokenizeStep ⟨[], .Ready, 1, 1⟩ 0 (Char.ofNat 0x10140) =
      .ok ⟨[], .ReadingNumber (TokenizerNumberReadingState.new (JsonTokenInfo.new 1 1 0)),
           1, 1 + 1⟩)
    ∧ (tokenizeStep ⟨[], .Ready, 1, 1⟩ 0 (Char.ofNat 0x10E60) =
      .ok ⟨[], .ReadingNumber (TokenizerNumberReadingState.new (JsonTokenInfo.new 1 1 0)),
           1, 1 + 1⟩)
    ∧ (tokenizeStep ⟨[], .ReadingNumber (TokenizerNumberReadingState.new (JsonTokenInfo.new 1 1 0)),
          1, 2⟩ 1 (Char.ofNat 0x10E60) =
      .ok ⟨[], .ReadingNumber (TokenizerNumberReadingState.new (JsonTokenInfo.new 1 1 0)),
           1, 2 + 1⟩) :=
  ⟨(unicode_numeric_accepted [] (TokenizerNumberReadingState.new (JsonTokenInfo.new 1 1 0))
      1 1 0 '٥' (by decide) (by decide)).1,
   (unicode_numeric_accepted [] (TokenizerNumberReadingState.new (JsonTokenInfo.new 1 1 0))
      1 2 1 '٥' (by decide) (by decide)).2,
   (unicode_numeric_accepted [] (TokenizerNumberReadingState.new (JsonTokenInfo.new 1 1 0))
      1 1 0 (Char.ofNat 0x10140) (by decide) (by decide)).1,
   (unicode_numeric_accepted [] (TokenizerNumberReadingState.new (JsonTokenInfo.new 1 1 0))
      1 1 0 (Char.ofNat 0x10E60) (by decide) (by decide)).1,
   (unicode_numeric_accepted [] (TokenizerNumberReadingState.new (JsonTokenInfo.new 1 1 0))
      1 2 1 (Char.ofNat 0x10E60) (by decide) (by decide)).2⟩

/-- C5: if the scan loop completes, ending in `ReadingString` makes the
whole call fail with `UnclosedString` at the opening quote's starting
location (through the single `end_current_token` call after the loop),
while ending in `Ready` or `ReadingNumber` never fails. -/
theorem unclosed_string_at_eof (json : List Char) (ex : ScanExec)
    (h : tokenizeLoop json 0 initExec = .ok ex) :
    (∀ s, ex.state = .ReadingString s →
      tokenize_json json = .error (.UnclosedString s.starting_location))
    ∧ (ex.state = .Ready → tokenize_json json = .ok ex.tokens)
    ∧ (∀ s, ex.state = .ReadingNumber s →
      tokenize_json json =
        .ok (end_current_token.add_number_to_tokens ex.tokens s)) := by
  obtain ⟨tks, st, ln, col⟩ := ex
  refine ⟨?_, ?_, ?_⟩
  · intro s hs
    simp only at hs
    subst hs
    simp [tokenize_json, h, end_current_token]
  · intro hs
    simp only at hs
    subst hs
    simp [tokenize_json, h, end_current_token]
  · intro s hs
    simp only at hs
    subst hs
    simp [tokenize_json, h, end_current_token]

/-- Witness for C5: the input `"f` ends inside a string and fails with
`UnclosedString` at the opening quote (line 1, column 1, index 0). -/
theorem unclosed_string_at_eof_witness :
    tokenize_json ['"', 'f'] = .error (.UnclosedString (JsonTokenInfo.new 1 1 0)) :=
  (unclosed_string_at_eof ['"', 'f']
      ⟨[], .ReadingString ⟨JsonTokenInfo.new 1 1 0, ['f'], false⟩, 1, 3⟩ (by decide)).1
    ⟨JsonTokenInfo.new 1 1 0, ['f'], false⟩ rfl

/-- C1 counterexample: in `"\a":` the colon is the fifth character, so
four characters are processed before it, and the claim predicts column
`1 + 4 = 5`; the code records column `4`, because the escape branch of
the string state reaches `continue` before the column increment, so the
escaped character does not advance the column. -/
theorem column_counter_counterexample :
    tokenize_json ['"', '\\', 'a', '"', ':'] =
      .ok [JsonToken.new (.String ['a']) (JsonTokenInfo.new 1 1 0),
           JsonToken.new .Colon (JsonTokenInfo.new 1 4 4)]
    ∧ (4 : Int) ≠ 1 + 4 := ⟨by decide, by decide⟩

/-- C1 (amended): the column counter starts at 1 and every successfully
processed character increments it by exactly one, except a character
consumed in the `ReadingString` state with the escape flag set, which
leaves the column unchanged (its branch skips the increment via
`continue`). -/
theorem column_counter_rule (ex : ScanExec) (i : Int) (c : Char) (ex' : ScanExec)
    (h : tokenizeStep ex i c = .ok ex') :
    initExec.columnNumber = 1 ∧
    ex'.columnNumber =
      (if inEscape ex.state then ex.columnNumber else ex.columnNumber + 1) := by
  refine ⟨rfl, ?_⟩
  obtain ⟨tks, st, ln, col⟩ := ex
  cases st <;>
      simp only [tokenizeStep, end_current_token] at h <;>
      (repeat' split at h) <;>
    first
      | exact Except.noConfusion h
      | (injection h with h; subst h; simp_all [inEscape])

/-- Witness for the amended C1: a structural character increments the
column, a character consumed under the escape flag does not. -/
theorem column_counter_rule_witness :
    (initExec.columnNumber = 1 ∧
      (⟨[JsonToken.new .ObjectStart (JsonTokenInfo.new 1 1 0)], .Ready, 1, 2⟩ :
          ScanExec).columnNumber =
        (if inEscape initExec.state then initExec.columnNumber
         else initExec.columnNumber + 1))
    ∧ (⟨[], .ReadingString ⟨JsonTokenInfo.new 1 1 0, ['a', 'b'], false⟩, 1, 3⟩ :
          ScanExec).columnNumber =
        (if inEscape (⟨[], .ReadingString ⟨JsonTokenInfo.new 1 1 0, ['a'], true⟩, 1, 3⟩ :
            ScanExec).state
         then (3 : Int) else 3 + 1) :=
  ⟨column_counter_rule initExec 0 '{'
      ⟨[JsonToken.new .ObjectStart (JsonTokenInfo.new 1 1 0)], .Ready, 1, 2⟩ (by decide),
   (column_counter_rule
      ⟨[], .ReadingString ⟨JsonTokenInfo.new 1 1 0, ['a'], true⟩, 1, 3⟩ 2 'b'
      ⟨[], .ReadingString ⟨JsonTokenInfo.new 1 1 0, ['a', 'b'], false⟩, 1, 3⟩ (by decide)).2⟩

/-- Scan-loop lemma behind C2: from `Ready`, a run of structural
characters keeps the scanner in `Ready`, never fails, and appends exactly
the tokens `specStructuralToken` prescribes, in input order. -/
theorem structural_loop (cs : List Char) :
    (∀ c ∈ cs, c ∈ structuralChars) →
    ∀ (tks : List JsonToken) (ln col i : Int),
    ∃ newTks ln' col',
      tokenizeLoop cs i ⟨tks, .Ready, ln, col⟩ = .ok ⟨tks ++ newTks, .Ready, ln', col'⟩ ∧
      newTks.map JsonToken.token_type = cs.filterMap specStructuralToken := by
  induction cs with
  | nil =>
    intro _ tks ln col i
    exact ⟨[], ln, col, by simp [tokenizeLoop], by simp⟩
  | cons c cs ih =>
    intro h tks ln col i
    have hc : c ∈ structuralChars := h c (List.mem_cons_self c cs)
    have hrest : ∀ x ∈ cs, x ∈ structuralChars := fun x hx => h x (List.mem_cons_of_mem c hx)
    simp only [structuralChars, List.mem_cons, List.not_mem_nil, or_false] at hc
    rcases hc with rfl | rfl | rfl | rfl | rfl | rfl | rfl
    · obtain ⟨newTks, ln', col', h1, h2⟩ :=
        ih hrest (tks ++ [JsonToken.new .ObjectStart (JsonTokenInfo.new ln col i)])
          ln (col + 1) (i + 1)
      exact ⟨JsonToken.new .ObjectStart (JsonTokenInfo.new ln col i) :: newTks, ln', col',
        by simp [tokenizeLoop, tokenizeStep, h1],
        by simp [h2, specStructuralToken, JsonToken.new]⟩
    · obtain ⟨newTks, ln', col', h1, h2⟩ :=
        ih hrest (tks ++ [JsonToken.new .ObjectEnd (JsonTokenInfo.new ln col i)])
          ln (col + 1) (i + 1)
      exact ⟨JsonToken.new .ObjectEnd (JsonTokenInfo.new ln col i) :: newTks, ln', col',
        by simp [tokenizeLoop, tokenizeStep, h1],
        by simp [h2, specStructuralToken, JsonToken.new]⟩
    · obtain ⟨newTks, ln', col', h1, h2⟩ :=
        ih hrest (tks ++ [JsonToken.new .ArrayStart (JsonTokenInfo.new ln col i)])
          ln (col + 1) (i + 1)
      exact ⟨JsonToken.new .ArrayStart (JsonTokenInfo.new ln col i) :: newTks, ln', col',
        by simp [tokenizeLoop, tokenizeStep, h1],
        by simp [h2, specStructuralToken, JsonToken.new]⟩
    · obtain ⟨newTks, ln', col', h1, h2⟩ :=
        ih hrest (tks ++ [JsonToken.new .ArrayEnd (JsonTokenInfo.new ln col i)])
          ln (col + 1) (i + 1)
      exact ⟨JsonToken.new .ArrayEnd (JsonTokenInfo.new ln col i) :: newTks, ln', col',
        by simp [tokenizeLoop, tokenizeStep, h1],
        by simp [h2, specStructuralToken, JsonToken.new]⟩
    · obtain ⟨newTks, ln', col', h1, h2⟩ :=
        ih hrest (tks ++ [JsonToken.new .Colon (JsonTokenInfo.new ln col i)])
          ln (col + 1) (i + 1)
      exact ⟨JsonToken.new .Colon (JsonTokenInfo.new ln col i) :: newTks, ln', col',
        by simp [tokenizeLoop, tokenizeStep, h1],
        by simp [h2, specStructuralToken, JsonToken.new]⟩
    · obtain ⟨newTks, ln', col', h1, h2⟩ := ih hrest tks ln (col + 1) (i + 1)
      exact ⟨newTks, ln', col',
        by simp [tokenizeLoop, tokenizeStep, h1],
        by simp [h2, specStructuralToken]⟩
    · obtain ⟨newTks, ln', col', h1, h2⟩ := ih hrest tks ln (col + 1) (i + 1)
      exact ⟨newTks, ln', col',
        by simp [tokenizeLoop, tokenizeStep, is_numeric, numericRanges, h1],
        by simp [h2, specStructuralToken]⟩

/-- C2: an input made only of `{`, `}`, `[`, `]`, `:`, `,` and spaces
(the empty input included) always tokenizes successfully, and the token
kinds are exactly the structural tokens of the triggering characters in
input order, commas and spaces contributing none. -/
theorem structural_only_tokenize (json : List Char)
    (h : ∀ c ∈ json, c ∈ structuralChars) :
    ∃ ts, tokenize_json json = .ok ts ∧
      ts.map JsonToken.token_type = json.filterMap specStructuralToken := by
  obtain ⟨newTks, ln', col', h1, h2⟩ := structural_loop json h [] 1 1 0
  simp only [List.nil_append] at h1
  exact ⟨newTks, by simp [tokenize_json, initExec, h1, end_current_token], h2⟩

/-- Witness for C2 on `{ :,]` (five structural tokens interleaved with a
comma and a space, which contribute nothing). -/
theorem structural_only_tokenize_witness :
    ∃ ts, tokenize_json ['{', ' ', ':', ',', ']'] = .ok ts ∧
      ts.map JsonToken.token_type =
        (['{', ' ', ':', ',', ']'] : List Char).filterMap specStructuralToken :=
  structural_only_tokenize ['{', ' ', ':', ',', ']'] (by decide)

end Json2Rust
